import Mathlib

/-!
Shallow embedding of the readiness-coordination core of `leptos_sync_ssr`
(`src/ready.rs`) and of its signal-resource pairing (`src/signal.rs`).

The tri-state flag stored in a slot's tokio `watch` channel is `Option Bool`:
`none` is Unset, `some false` is Primed, `some true` is Completed.

Modelling notes.
The watch channel is modelled as retaining the last sent value: a send stores
the value.  (Every property below concerns a flag as observed by a waiter or
reader, and such an observer holds a live `Receiver` that keeps the channel
open, so sends succeed in those situations.)  Each live `ReadySender` holds a
clone of the channel's `Sender`, in addition to the one `Sender` owned by the
`ReadyInner` itself, so tokio's `sender_count()` equals the number of live
`ReadySender` values plus one.  A Rust panic is modelled as `Except.error`
carrying the panic message.
-/

namespace LeptosSyncSsr

/-- Tri-state readiness flag carried by the watch channel: `none` is Unset,
`some false` is Primed, `some true` is Completed. -/
abbrev Flag := Option Bool

/-- State of one `ReadyInner` (`src/ready.rs` lines 69-79): the watch
channel's current value `flag`, the `manual_complete` configuration, the
`manual_complete_armed` cell, and the number of live `ReadySender` clones. -/
structure ReadyInner where
  flag : Flag
  manual_complete : Bool
  manual_complete_armed : Bool
  readySenders : Nat
deriving Repr, DecidableEq

/-- Transcribes `ReadyInner::new` (`src/ready.rs` 452-461): wraps a freshly
created channel whose initial value is `initFlag`; the armed cell starts
false and no `ReadySender` exists yet. -/
def ReadyInner.new (initFlag : Flag) (manual_complete : Bool) : ReadyInner :=
  { flag := initFlag
    manual_complete := manual_complete
    manual_complete_armed := false
    readySenders := 0 }

/-- Value of tokio's `Sender::sender_count()` for the slot's channel: the
`Sender` owned by the `ReadyInner` plus one clone per live `ReadySender`. -/
def ReadyInner.sender_count (s : ReadyInner) : Nat :=
  s.readySenders + 1

/-- Transcribes `ReadyInner::complete` (`src/ready.rs` 463-474):
`sender.send(Some(true))`, with the send result discarded. -/
def ReadyInner.complete (s : ReadyInner) : ReadyInner :=
  { s with flag := some true }

/-- Transcribes `ReadyInner::to_ready_sender` (`src/ready.rs` 477-485): arms
`manual_complete_armed` when the slot is configured for manual completion and
is not yet armed, then clones the inner (and hence the watch `Sender`),
adding one live `ReadySender`. -/
def ReadyInner.to_ready_sender (s : ReadyInner) : ReadyInner :=
  { s with
    manual_complete_armed := s.manual_complete_armed || s.manual_complete
    readySenders := s.readySenders + 1 }

/-- Transcribes `Drop for ReadySender` (`src/ready.rs` 510-517): completes
unless `manual_complete_armed` is set; the dropped sender's clone of the
watch `Sender` goes away with it. -/
def ReadySender.drop (s : ReadyInner) : ReadyInner :=
  let s' : ReadyInner := { s with readySenders := s.readySenders - 1 }
  if !s'.manual_complete_armed then s'.complete else s'

/-- Transcribes `ReadySender::complete` (`src/ready.rs` 520-524). -/
def ReadySender.complete (s : ReadyInner) : ReadyInner :=
  s.complete

/-- Effect of `CoReadyCoordinator::notify` (`src/ready.rs` 187-196) on one
registered slot: send `Some(false)` unless the channel's current value is
already `Some(true)`. -/
def CoReadyCoordinator.notifySlot (s : ReadyInner) : ReadyInner :=
  if s.flag ≠ some true then { s with flag := some false } else s

/-- Registered slots of a `CoReadyCoordinator` (`src/ready.rs` 44-48):
the `Arc<Mutex<Vec<CoReady>>>` collection. -/
abbrev CoReadyCoordinator := List ReadyInner

/-- Transcribes `CoReadyCoordinator::new` (`src/ready.rs` 167-172). -/
def CoReadyCoordinator.new : CoReadyCoordinator :=
  []

/-- Transcribes `CoReadyCoordinator::register` (`src/ready.rs` 174-178):
push onto the vector. -/
def CoReadyCoordinator.register (c : CoReadyCoordinator) (r : ReadyInner) :
    CoReadyCoordinator :=
  c ++ [r]

/-- Transcribes `CoReadyCoordinator::notify` (`src/ready.rs` 187-196):
iterate over every registered slot and prime those not yet completed. -/
def CoReadyCoordinator.notify (c : CoReadyCoordinator) : CoReadyCoordinator :=
  c.map CoReadyCoordinator.notifySlot

/-- Predicate passed to `wait_for` in `CoReadySubscriptionInner::wait_inner`
(`src/ready.rs` 434-448).  It is a closure over the slot's `Sender`, so
`sender_count` is read afresh at every evaluation, together with the
currently observed channel value `v`. -/
def CoReadySubscriptionInner.waitPred (manual_complete : Bool) (v : Flag)
    (sender_count : Nat) : Bool :=
  v == some true || (!manual_complete && v == some false && sender_count == 1)

/-- Evaluation of the `wait_inner` predicate against a slot's current state:
`wait_for` resolves exactly when this holds at some observation, and checks
the channel's current value first, so it returns at once when this already
holds at subscribe time. -/
def CoReadySubscriptionInner.resolvedNow (s : ReadyInner) : Bool :=
  CoReadySubscriptionInner.waitPred s.manual_complete s.flag s.sender_count

/-- Transcribes `Ready::new` (`src/ready.rs` 488-496): the channel is created
with initial value `Some(false)` and the inner is not manual-complete. -/
def Ready.new : ReadyInner :=
  ReadyInner.new (some false) false

/-- Content of a `ReadySubscriptionInner` (`src/ready.rs` 106-110) relevant
to waiting: the `Ready` state it subscribed to. -/
structure ReadySubscriptionInner where
  ready : ReadyInner
deriving Repr, DecidableEq

/-- Transcribes `Ready::subscribe_inner` (`src/ready.rs` 502-507). -/
def Ready.subscribe_inner (r : ReadyInner) : ReadySubscriptionInner :=
  { ready := r }

/-- A `ReadyHandle` (`src/ready.rs` 91-96) wraps the `Option<Ready>` obtained
from `use_context` in `Ready::handle`. -/
structure ReadyHandle where
  inner : Option ReadyInner

/-- Transcribes `ReadyHandle::subscribe` (`src/ready.rs` 314-326): map
`Ready::subscribe_inner` over the optional state. -/
def ReadyHandle.subscribe (h : ReadyHandle) : Option ReadySubscriptionInner :=
  h.inner.map Ready.subscribe_inner

/-- Behaviour of a `wait()` call: either return immediately, or wait on the
channel until the observed value satisfies the given predicate. -/
inductive WaitAction where
  | ret
  | waitFor (p : Flag → Bool)

/-- Transcribes `ReadySubscription::wait` (`src/ready.rs` 346-351): with no
inner subscription it returns at once; otherwise it runs
`ReadySubscriptionInner::wait_inner` (`src/ready.rs` 381-431), which waits
until the observed value equals `Some(true)`. -/
def ReadySubscription.wait (inner : Option ReadySubscriptionInner) :
    WaitAction :=
  match inner with
  | none => .ret
  | some _ => .waitFor (fun v => v == some true)

/-- Transcribes `CoReady::new_with_options` (`src/ready.rs` 267-281): panics
(modelled as `Except.error`) when no `CoReadyCoordinator` context is present;
otherwise creates a channel with initial value `None`, wraps it in a
`ReadyInner`, and registers the result with the coordinator. -/
def CoReady.new_with_options (ctx : Option CoReadyCoordinator)
    (manual_complete : Bool) :
    Except String (ReadyInner × CoReadyCoordinator) :=
  match ctx with
  | none => .error "expected a context of CoReadyCoordinator to be present"
  | some coordinator =>
      let result := ReadyInner.new none manual_complete
      .ok (result, coordinator.register result)

/-- Transcribes `CoReady::new` (`src/ready.rs` 223-226). -/
def CoReady.new (ctx : Option CoReadyCoordinator) :
    Except String (ReadyInner × CoReadyCoordinator) :=
  CoReady.new_with_options ctx false

/-- Operations of `src/ready.rs` acting on one slot's state: explicit
completion, the coordinator's notify, sender acquisition, sender drop, and
subscription (which only adds a `Receiver` to the channel). -/
inductive SlotOp where
  | complete
  | notifySlot
  | acquireSender
  | dropSender
  | subscribe
deriving Repr, DecidableEq

/-- Application of each slot operation to a slot state. -/
def SlotOp.apply : SlotOp → ReadyInner → ReadyInner
  | .complete, s => s.complete
  | .notifySlot, s => CoReadyCoordinator.notifySlot s
  | .acquireSender, s => s.to_ready_sender
  | .dropSender, s => ReadySender.drop s
  | .subscribe, s => s

/-- Value cell backing an `SsrSignalResource`: `none` models a disposed
`ArcRwSignal`, for which the `try_get` / `try_get_untracked` /
`try_write_untracked` calls return `None`. -/
abbrev Cell (T : Type) := Option T

/-- Transcribes the resource's source closure in `SsrSignalResourceInner::new`
(`src/signal.rs` 96-99): `signal_read.try_get().unwrap_or(value.clone())`,
where `value` is the construction-time initial value. -/
def SsrSignalResourceInner.source {T : Type} (value : T)
    (signal_read : Cell T) : T :=
  signal_read.getD value

/-- Transcribes the tail of the resource fetcher in
`SsrSignalResourceInner::new` (`src/signal.rs` 104-118): after
`subscriber.wait()` returns, the value produced is
`signal_read.try_get_untracked().unwrap_or(original)`, where `signal_read`
is read untracked at that moment and `original` is the value passed in when
the fetch started. -/
def SsrSignalResourceInner.fetched {T : Type} (original : T)
    (signal_read : Cell T) : T :=
  signal_read.getD original

/-- State of an `SsrSignalResourceInner` (`src/signal.rs` 48-54) under SSR:
the registered `CoReady` slot plus the shared value cell split into its read
and write ends. -/
structure SsrSignalResourceInner (T : Type) where
  ready : ReadyInner
  cell : Cell T

/-- Transcribes `SsrSignalResourceInner::new` (`src/signal.rs` 84-129):
creates the `CoReady` slot (panicking when no coordinator context is
present) and a fresh `ArcRwSignal` holding `value`, split into read and
write ends; the derived resource behaves per `source` and `fetched`. -/
def SsrSignalResourceInner.new {T : Type} (ctx : Option CoReadyCoordinator)
    (value : T) (manual_complete : Bool) :
    Except String (SsrSignalResourceInner T × CoReadyCoordinator) :=
  (CoReady.new_with_options ctx manual_complete).map
    (fun rc => ({ ready := rc.1, cell := some value }, rc.2))

/-- Transcribes `SsrSignalResource::new` (`src/signal.rs` 151-156). -/
def SsrSignalResource.new {T : Type} (ctx : Option CoReadyCoordinator)
    (value : T) :
    Except String (SsrSignalResourceInner T × CoReadyCoordinator) :=
  SsrSignalResourceInner.new ctx value false

/-- State reachable through an `SsrWriteSignalInner` (`src/signal.rs` 74-78):
the slot of its acquired `ReadySender` and the shared value cell its
`ArcWriteSignal` writes into. -/
structure SsrWriteSignalInner (T : Type) where
  ready_sender : ReadyInner
  signal_write : Cell T

/-- Transcribes `Notify for SsrWriteSignal` (`src/signal.rs` 515-523):
`signal_write.notify()` marks the signal dirty in the reactive graph, then
`ready_sender.complete()` broadcasts completion. -/
def SsrWriteSignal.notify {T : Type} (s : SsrWriteSignalInner T) :
    SsrWriteSignalInner T :=
  { s with ready_sender := s.ready_sender.complete }

/-- Transcribes `Notify for SsrWriteSignalNotifier` (`src/signal.rs`
525-533), whose body is identical to the one for `SsrWriteSignal`. -/
def SsrWriteSignalNotifier.notify {T : Type} (s : SsrWriteSignalInner T) :
    SsrWriteSignalInner T :=
  { s with ready_sender := s.ready_sender.complete }

/-- A set/update performed through `Write for SsrWriteSignal`
(`src/signal.rs` 480-498): `try_write` wraps the untracked write guard of the
underlying signal together with an `SsrWriteSignalNotifier`; the leptos
`WriteGuard` assigns the new value and notifies that notifier when the guard
drops.  When the underlying signal is disposed, `try_write_untracked` yields
no guard, so no write and no notify happen and the result is `none`. -/
def SsrWriteSignal.writeThrough {T : Type} (v : T)
    (s : SsrWriteSignalInner T) : Option (SsrWriteSignalInner T) :=
  match s.signal_write with
  | none => none
  | some _ => some (SsrWriteSignalNotifier.notify { s with signal_write := some v })

/-- Helper: the per-slot effect of `CoReadyCoordinator::notify` is
idempotent. -/
theorem notifySlot_idem (s : ReadyInner) :
    CoReadyCoordinator.notifySlot (CoReadyCoordinator.notifySlot s) =
      CoReadyCoordinator.notifySlot s := by
  by_cases h : s.flag = some true <;>
    simp [CoReadyCoordinator.notifySlot, h]

/-- C1: `CoReadySubscriptionInner::wait_inner` resolves exactly when the
slot's flag is observed as Completed (`Some(true)`), or — for a slot not
created in manual-complete mode — as Primed (`Some(false)`) while the count
of live `ReadySender`s is zero; the live-sender count is read inside the
waiter's predicate at each observation (never from a notify-time snapshot),
so acquiring a sender after the coordinator primed a not-yet-completed slot
keeps the waiters waiting; and a subscription whose predicate already holds
at subscribe time resolves immediately, since `wait_for` checks the current
value first. -/
theorem C1_coready_wait_predicate (s : ReadyInner) :
    (CoReadySubscriptionInner.resolvedNow s = true ↔
      (s.flag = some true ∨
        (s.manual_complete = false ∧ s.flag = some false ∧
          s.readySenders = 0))) ∧
    (s.flag ≠ some true →
      CoReadySubscriptionInner.resolvedNow
        ((CoReadyCoordinator.notifySlot s).to_ready_sender) = false) := by
  constructor
  · obtain ⟨f, m, a, n⟩ := s
    cases m <;> rcases f with _ | _ | _ <;>
      simp [CoReadySubscriptionInner.resolvedNow,
        CoReadySubscriptionInner.waitPred, ReadyInner.sender_count]
  · intro h
    simp [CoReadyCoordinator.notifySlot, h, ReadyInner.to_ready_sender,
      CoReadySubscriptionInner.resolvedNow,
      CoReadySubscriptionInner.waitPred, ReadyInner.sender_count]

/-- Witness for C1 at concrete slots: a primed slot with zero live senders
resolves, and a slot primed by notify but with a sender acquired afterwards
does not. -/
theorem C1_witness :
    CoReadySubscriptionInner.resolvedNow ⟨some false, false, false, 0⟩ = true ∧
    CoReadySubscriptionInner.resolvedNow
      ((CoReadyCoordinator.notifySlot ⟨none, false, false, 0⟩).to_ready_sender) =
        false :=
  ⟨((C1_coready_wait_predicate ⟨some false, false, false, 0⟩).1).mpr
      (Or.inr ⟨rfl, rfl, rfl⟩),
    (C1_coready_wait_predicate ⟨none, false, false, 0⟩).2 (by decide)⟩

/-- C2: `CoReadyCoordinator::notify` sends the Primed value (`Some(false)`)
to every registered slot whose flag is not already Completed (`Some(true)`)
and leaves the flags of Completed slots unchanged; repeated notify calls
only re-assert Primed on the slots not yet Completed, hence are idempotent
on every slot's resulting flag. -/
theorem C2_notify_primes_noncompleted (c : CoReadyCoordinator)
    (s : ReadyInner) :
    (s.flag ≠ some true →
      CoReadyCoordinator.notifySlot s = { s with flag := some false }) ∧
    (s.flag = some true → CoReadyCoordinator.notifySlot s = s) ∧
    CoReadyCoordinator.notify (CoReadyCoordinator.notify c) =
      CoReadyCoordinator.notify c := by
  refine ⟨fun h => by simp [CoReadyCoordinator.notifySlot, h],
    fun h => by simp [CoReadyCoordinator.notifySlot, h], ?_⟩
  simp only [CoReadyCoordinator.notify, List.map_map]
  exact List.map_congr_left fun s _ => notifySlot_idem s

/-- Witness for C2 at concrete slots: notify primes an Unset slot and leaves
a Completed slot untouched. -/
theorem C2_witness :
    CoReadyCoordinator.notifySlot ⟨none, false, false, 0⟩ =
      ⟨some false, false, false, 0⟩ ∧
    CoReadyCoordinator.notifySlot ⟨some true, false, false, 0⟩ =
      ⟨some true, false, false, 0⟩ :=
  ⟨(C2_notify_primes_noncompleted [] ⟨none, false, false, 0⟩).1 (by decide),
    (C2_notify_primes_noncompleted [] ⟨some true, false, false, 0⟩).2.1 rfl⟩

/-- C3: dropping a `ReadySender` triggers `complete()` (the flag becomes
Completed) whenever the slot is not armed, which is the default; when the
slot is in manual-complete mode, acquiring a sender arms it, and dropping
the sender then leaves the slot's flag unchanged, so subscribers keep
waiting for an explicit `complete()`. -/
theorem C3_ready_sender_drop (s : ReadyInner) (init : Flag) :
    (s.manual_complete_armed = false →
      (ReadySender.drop s).flag = some true) ∧
    (s.manual_complete_armed = true → (ReadySender.drop s).flag = s.flag) ∧
    (ReadySender.drop ((ReadyInner.new init false).to_ready_sender)).flag =
      some true ∧
    (ReadySender.drop ((ReadyInner.new init true).to_ready_sender)).flag =
      init := by
  refine ⟨fun h => by simp [ReadySender.drop, ReadyInner.complete, h],
    fun h => by simp [ReadySender.drop, h],
    by simp [ReadySender.drop, ReadyInner.new, ReadyInner.to_ready_sender,
      ReadyInner.complete],
    by simp [ReadySender.drop, ReadyInner.new, ReadyInner.to_ready_sender]⟩

/-- Witness for C3 at concrete slots: a drop on an unarmed slot completes it,
a drop on an armed manual-complete slot leaves the flag Primed. -/
theorem C3_witness :
    (ReadySender.drop ⟨some false, false, false, 1⟩).flag = some true ∧
    (ReadySender.drop ⟨some false, true, true, 1⟩).flag = some false :=
  ⟨(C3_ready_sender_drop ⟨some false, false, false, 1⟩ none).1 rfl,
    (C3_ready_sender_drop ⟨some false, true, true, 1⟩ none).2.1 rfl⟩

/-- C4: once a slot's flag is Completed (`Some(true)`), none of the slot
operations — explicit completion, the coordinator's notify, sender
acquisition, sender drop, or subscribing — moves it back to Unset or Primed;
in particular a second `complete()` is total (no panic in the model) and
leaves the flag Completed. -/
theorem C4_completed_is_terminal (op : SlotOp) (s : ReadyInner)
    (h : s.flag = some true) :
    (SlotOp.apply op s).flag = some true ∧
    (ReadyInner.complete (ReadyInner.complete s)).flag = some true := by
  refine ⟨?_, rfl⟩
  cases op <;> by_cases ha : s.manual_complete_armed <;>
    simp [SlotOp.apply, ReadyInner.complete, ReadyInner.to_ready_sender,
      CoReadyCoordinator.notifySlot, ReadySender.drop, h, ha]

/-- Witness for C4 at a concrete Completed slot and the notify operation. -/
theorem C4_witness :
    (SlotOp.apply .notifySlot ⟨some true, false, false, 0⟩).flag =
      some true ∧
    (ReadyInner.complete
      (ReadyInner.complete ⟨some true, false, false, 0⟩)).flag = some true :=
  C4_completed_is_terminal .notifySlot ⟨some true, false, false, 0⟩ rfl

/-- C5: every mutating operation through an `SsrWriteSignal` — its `notify`,
or a set/update through the `Write` trait's guard (whose drop notifies the
`SsrWriteSignalNotifier`) — completes the paired slot as a side effect, on
every mutation and not only the first one. -/
theorem C5_mutation_completes {T : Type} (s : SsrWriteSignalInner T)
    (v : T) :
    (SsrWriteSignal.notify s).ready_sender.flag = some true ∧
    (∀ s', SsrWriteSignal.writeThrough v s = some s' →
      s'.ready_sender.flag = some true ∧ s'.signal_write = some v) ∧
    (SsrWriteSignal.notify (SsrWriteSignal.notify s)).ready_sender.flag =
      some true := by
  refine ⟨rfl, ?_, rfl⟩
  intro s' h
  cases hc : s.signal_write with
  | none => simp [SsrWriteSignal.writeThrough, hc] at h
  | some w =>
      simp only [SsrWriteSignal.writeThrough, hc, Option.some.injEq] at h
      subst h
      exact ⟨rfl, rfl⟩

/-- Witness for C5 at a concrete write-signal state, exercising both the
direct notify and a set through the write guard. -/
theorem C5_witness :
    (SsrWriteSignal.notify
      (⟨⟨none, false, false, 1⟩, some 0⟩ :
        SsrWriteSignalInner Nat)).ready_sender.flag = some true ∧
    ((SsrWriteSignalNotifier.notify
        (⟨⟨none, false, false, 1⟩, some 7⟩ :
          SsrWriteSignalInner Nat)).ready_sender.flag = some true ∧
      (SsrWriteSignalNotifier.notify
        (⟨⟨none, false, false, 1⟩, some 7⟩ :
          SsrWriteSignalInner Nat)).signal_write = some 7) :=
  ⟨(C5_mutation_completes
      (⟨⟨none, false, false, 1⟩, some 0⟩ : SsrWriteSignalInner Nat) 7).1,
    (C5_mutation_completes
      (⟨⟨none, false, false, 1⟩, some 0⟩ : SsrWriteSignalInner Nat) 7).2.1
      _ rfl⟩

/-- C6: after its subscription's wait completes, the resource fetcher of an
`SsrSignalResource` re-reads the value cell untracked and returns the value
present in the cell at that moment, not the `original` value captured when
the fetch started; a value written between subscribe and wait-release is the
one returned. -/
theorem C6_fetch_rereads_cell {T : Type} (original v : T)
    (cellAtRelease : Cell T) (h : cellAtRelease = some v) :
    SsrSignalResourceInner.fetched original cellAtRelease = v := by
  subst h
  rfl

/-- Witness for C6: with fetch-start capture `0` and the cell holding `7` at
wait-release, the fetcher returns `7`. -/
theorem C6_witness : SsrSignalResourceInner.fetched 0 (some 7) = 7 :=
  C6_fetch_rereads_cell 0 7 (some 7) rfl

/-- C7: a `ReadySubscription` obtained by subscribing from a `ReadyHandle`
that found no `Ready` context resolves `wait()` immediately — the wait
consults no channel at all, regardless of any senders. -/
theorem C7_no_context_wait_immediate :
    ReadySubscription.wait ((ReadyHandle.mk none).subscribe) =
      WaitAction.ret :=
  rfl

/-- C8 counterexample: a fresh non-coordinated `Ready` state does not have
its flag equal to Unset (`None`) — `Ready::new` seeds the channel with
`Some(false)`, the Primed value. -/
theorem C8_counterexample :
    Ready.new.flag = some false ∧ ¬ Ready.new.flag = (none : Flag) := by
  exact ⟨rfl, by decide⟩

/-- C8 (amended): immediately after construction, a fresh non-coordinated
`Ready` state has its tri-state flag equal to Primed (`Some(false)`), while
a fresh coordinated `CoReady` state is created with the Unset (`None`) flag,
which is not Completed, and is registered with its coordinator. -/
theorem C8_amended (c : CoReadyCoordinator) (manual : Bool) :
    Ready.new.flag = some false ∧
    CoReady.new_with_options (some c) manual =
      .ok (ReadyInner.new none manual,
        c.register (ReadyInner.new none manual)) ∧
    (ReadyInner.new none manual).flag = none ∧
    (ReadyInner.new none manual).flag ≠ some true := by
  exact ⟨rfl, rfl, rfl, by simp [ReadyInner.new]⟩

/-- C9: constructing a `CoReady` slot — and hence an `SsrSignalResource`,
whose construction creates one — panics at construction time when no
`CoReadyCoordinator` context is available (modelled as the constructor
itself returning the panic as an error); with the context present,
construction succeeds and the new slot is registered with that
coordinator. -/
theorem C9_missing_context_panics {T : Type} (c : CoReadyCoordinator)
    (manual : Bool) (v : T) :
    CoReady.new_with_options none manual =
      .error "expected a context of CoReadyCoordinator to be present" ∧
    SsrSignalResource.new none v =
      (.error "expected a context of CoReadyCoordinator to be present" :
        Except String (SsrSignalResourceInner T × CoReadyCoordinator)) ∧
    CoReady.new_with_options (some c) manual =
      .ok (ReadyInner.new none manual,
        c.register (ReadyInner.new none manual)) ∧
    SsrSignalResource.new (some c) v =
      .ok ({ ready := ReadyInner.new none false, cell := some v },
        c.register (ReadyInner.new none false)) := by
  exact ⟨rfl, rfl, rfl, rfl⟩

/-- C10: when the underlying value cell of an `SsrSignalResource` is
disposed, neither accessor panics: the resource's source closure falls back
to a clone of the construction-time initial value, and the fetcher, after
waiting, falls back to the `original` value captured when the fetch
started. -/
theorem C10_disposed_cell_fallbacks {T : Type} (initial original : T) :
    SsrSignalResourceInner.source initial (none : Cell T) = initial ∧
    SsrSignalResourceInner.fetched original (none : Cell T) = original :=
  ⟨rfl, rfl⟩

end LeptosSyncSsr
